import Mathlib

/-!
Verification development for the rentalai accounting and HUD services
(`backend/app/services/accounting_service.py`, `backend/app/services/hud_service.py`).

The Python code does all money arithmetic with `decimal.Decimal` under the
default context (precision 28, ROUND_HALF_EVEN).  We embed a finite decimal
as a coefficient/exponent pair with value `c * 10 ^ e`, and translate the
arithmetic of CPython's `_pydecimal.py`: every operation computes the exact
result and then `_fix`es it, rounding the coefficient to at most 28
significant digits half-even.  Exponent-range handling (`Emin`/`Emax`,
subnormals) never triggers at the exponents reachable here and is omitted.
-/

namespace RentalAI

/-- A finite Python `decimal.Decimal`: integer coefficient `c` (sign included)
and exponent `e`, denoting the rational `c * 10 ^ e`. -/
structure PyDecimal where
  c : Int
  e : Int
deriving DecidableEq

/-- Default decimal context precision (`decimal.getcontext().prec`). -/
def prec : Nat := 28

/-- Digit count of the decimal representation, `len(str(n))` for `n ≥ 0`
(`numDigits 0 = 1`).  Fuelled structural recursion so that it evaluates by
kernel reduction; fuel `n` always suffices. -/
def numDigitsAux : Nat → Nat → Nat
  | 0, _ => 1
  | f + 1, n => if n < 10 then 1 else numDigitsAux f (n / 10) + 1

/-- `len(str(n))`: number of decimal digits of `n`. -/
def numDigits (n : Nat) : Nat := numDigitsAux n n

/-- Round `q` with discarded remainder `r` out of `p` (the weight of the
dropped digits) using ROUND_HALF_EVEN, the default context rounding. -/
def roundHalfEvenNat (q r p : Nat) : Nat :=
  if p < 2 * r then q + 1
  else if 2 * r < p then q
  else if q % 2 = 1 then q + 1 else q

/-- `Decimal._fix(context)`: if the coefficient has more than `prec` digits,
round it half-even to `prec` digits, bumping the exponent accordingly;
a post-round carry to `10 ^ prec` drops one further digit. -/
def pyFix (d : PyDecimal) : PyDecimal :=
  let n := d.c.natAbs
  if numDigits n ≤ prec then d
  else
    let drop := numDigits n - prec
    let p := 10 ^ drop
    let q1 := roundHalfEvenNat (n / p) (n % p) p
    let qe : Nat × Int :=
      if prec < numDigits q1 then (q1 / 10, d.e + drop + 1) else (q1, d.e + drop)
    ⟨if d.c < 0 then -(qe.1 : Int) else (qe.1 : Int), qe.2⟩

/-- `Decimal.__add__`: align both operands to the smaller exponent, add the
coefficients exactly, then `_fix`. -/
def pyAdd (a b : PyDecimal) : PyDecimal :=
  let emin := min a.e b.e
  pyFix ⟨a.c * (10 : Int) ^ (a.e - emin).toNat + b.c * (10 : Int) ^ (b.e - emin).toNat, emin⟩

/-- `Decimal.__sub__`: negate the coefficient of the second operand
(`copy_negate`, no rounding) and add. -/
def pySub (a b : PyDecimal) : PyDecimal := pyAdd a ⟨-b.c, b.e⟩

/-- Unary minus `Decimal.__neg__`: negate the coefficient, then `_fix`. -/
def pyNeg (a : PyDecimal) : PyDecimal := pyFix ⟨-a.c, a.e⟩

/-- `Decimal.__mul__`: multiply coefficients, add exponents, then `_fix`. -/
def pyMul (a b : PyDecimal) : PyDecimal := pyFix ⟨a.c * b.c, a.e + b.e⟩

/-- Strip trailing zeros from an exact quotient while the exponent is below
the ideal exponent (the `while exp < ideal_exp and coeff % 10 == 0` loop of
`Decimal.__truediv__`); the fuel is exactly `ideal - e`. -/
def stripZeros : Nat → Nat → Int → Nat × Int
  | 0, q, e => (q, e)
  | f + 1, q, e => if q % 10 = 0 then stripZeros f (q / 10) (e + 1) else (q, e)

/-- `Decimal.__truediv__` for a nonzero divisor (the source only divides after
guarding the divisor against zero; division by zero raises in Python and is
mapped to `0` here, a branch the embedded services never reach).  The shift
makes the trial quotient carry `prec + 1` significant digits; an inexact
quotient ending in `0` or `5` is nudged up one so that the final half-even
`_fix` rounds correctly; an exact quotient drops trailing zeros down to the
ideal exponent. -/
def pyDiv (a b : PyDecimal) : PyDecimal :=
  let an := a.c.natAbs
  let bn := b.c.natAbs
  if bn = 0 then ⟨0, 0⟩
  else if an = 0 then pyFix ⟨0, a.e - b.e⟩
  else
    let neg : Bool := decide (a.c < 0) != decide (b.c < 0)
    let shift : Int := (numDigits bn : Int) - (numDigits an : Int) + (prec : Int) + 1
    let exp0 : Int := a.e - b.e - shift
    let qr : Nat × Nat :=
      if 0 ≤ shift then ((an * 10 ^ shift.toNat) / bn, (an * 10 ^ shift.toNat) % bn)
      else (an / (bn * 10 ^ (-shift).toNat), an % (bn * 10 ^ (-shift).toNat))
    let qe : Nat × Int :=
      if qr.2 ≠ 0 then (if qr.1 % 5 = 0 then qr.1 + 1 else qr.1, exp0)
      else stripZeros (a.e - b.e - exp0).toNat qr.1 exp0
    pyFix ⟨if neg then -(qe.1 : Int) else (qe.1 : Int), qe.2⟩

/-- Rational value denoted by a decimal. -/
def toRat (d : PyDecimal) : ℚ := (d.c : ℚ) * (10 : ℚ) ^ d.e

/-- Both coefficients rescaled to the common (minimum) exponent; decimal
comparisons compare these integers. -/
def cmpKey (a b : PyDecimal) : Int × Int :=
  (a.c * (10 : Int) ^ (a.e - min a.e b.e).toNat,
   b.c * (10 : Int) ^ (b.e - min a.e b.e).toNat)

/-- `Decimal.__lt__`: value comparison. -/
def pyLtB (a b : PyDecimal) : Bool := decide ((cmpKey a b).1 < (cmpKey a b).2)

/-- `Decimal.__le__`: value comparison. -/
def pyLeB (a b : PyDecimal) : Bool := decide ((cmpKey a b).1 ≤ (cmpKey a b).2)

/-- `Decimal.__eq__`: value comparison (also used for `!= 0` guards, where
Python promotes the `int` literal to a decimal). -/
def pyEqB (a b : PyDecimal) : Bool := decide ((cmpKey a b).1 = (cmpKey a b).2)

/-- Python `max(a, b)`: keeps the first argument unless the second compares
strictly greater. -/
def pyMax (a b : PyDecimal) : PyDecimal := if pyLtB a b then b else a

/-- `Decimal("0")`. -/
def dec0 : PyDecimal := ⟨0, 0⟩

/-- `Decimal("12")`. -/
def dec12 : PyDecimal := ⟨12, 0⟩

/-- `Decimal("0.30")`. -/
def dec030 : PyDecimal := ⟨30, -2⟩

/-- The `int` literal `100`, promoted to `Decimal(100)` on use. -/
def dec100 : PyDecimal := ⟨100, 0⟩

/-- `str(n)` for a natural number. -/
def natRepr (n : Nat) : String := String.mk (Nat.toDigits 10 n)

/-- `str(i)` for a Python `int`. -/
def intRepr (i : Int) : String := (if i < 0 then "-" else "") ++ natRepr i.natAbs

/-- `Decimal.__str__` for finite values: coefficient digits with the decimal
point placed `leftdigits` in from the left when the exponent is at most zero
and the adjusted exponent at least `-6`, otherwise scientific notation. -/
def decStr (d : PyDecimal) : String :=
  let ds := Nat.toDigits 10 d.c.natAbs
  let len : Int := (ds.length : Int)
  let leftdigits : Int := d.e + len
  let dotplace : Int := if d.e ≤ 0 ∧ -6 < leftdigits then leftdigits else 1
  let body : String :=
    if dotplace ≤ 0 then
      "0." ++ String.mk (List.replicate (-dotplace).toNat '0') ++ String.mk ds
    else if len ≤ dotplace then
      String.mk ds ++ String.mk (List.replicate (dotplace - len).toNat '0')
    else
      String.mk (ds.take dotplace.toNat) ++ "." ++ String.mk (ds.drop dotplace.toNat)
  let expI : Int := leftdigits - dotplace
  let exppart : String :=
    if expI = 0 then ""
    else "E" ++ (if 0 < expI then "+" else "-") ++ natRepr expI.natAbs
  (if d.c < 0 then "-" else "") ++ body ++ exppart

/-! ### Value semantics of the decimal comparisons -/

lemma toRat_scale (d : PyDecimal) (emin : ℤ) (h : emin ≤ d.e) :
    toRat d = ((d.c * (10 : ℤ) ^ (d.e - emin).toNat : ℤ) : ℚ) * (10 : ℚ) ^ emin := by
  unfold toRat
  push_cast
  rw [← zpow_natCast (10 : ℚ) (d.e - emin).toNat, Int.toNat_of_nonneg (sub_nonneg.mpr h),
    mul_assoc, ← zpow_add₀ (by norm_num : (10 : ℚ) ≠ 0), sub_add_cancel]

lemma cmpKey_lt (a b : PyDecimal) : (cmpKey a b).1 < (cmpKey a b).2 ↔ toRat a < toRat b := by
  rw [toRat_scale a (min a.e b.e) (min_le_left _ _),
    toRat_scale b (min a.e b.e) (min_le_right _ _),
    mul_lt_mul_right (a := (10 : ℚ) ^ min a.e b.e) (by positivity), Int.cast_lt]
  exact Iff.rfl

lemma cmpKey_le (a b : PyDecimal) : (cmpKey a b).1 ≤ (cmpKey a b).2 ↔ toRat a ≤ toRat b := by
  rw [toRat_scale a (min a.e b.e) (min_le_left _ _),
    toRat_scale b (min a.e b.e) (min_le_right _ _),
    mul_le_mul_right (a := (10 : ℚ) ^ min a.e b.e) (by positivity), Int.cast_le]
  exact Iff.rfl

lemma pyLtB_iff (a b : PyDecimal) : pyLtB a b = true ↔ toRat a < toRat b := by
  rw [pyLtB, decide_eq_true_iff]; exact cmpKey_lt a b

lemma pyLeB_iff (a b : PyDecimal) : pyLeB a b = true ↔ toRat a ≤ toRat b := by
  rw [pyLeB, decide_eq_true_iff]; exact cmpKey_le a b

lemma cmpKey_eq (a b : PyDecimal) :
    (a.c * (10 : ℤ) ^ (a.e - min a.e b.e).toNat = b.c * (10 : ℤ) ^ (b.e - min a.e b.e).toNat) ↔
      toRat a = toRat b := by
  rw [toRat_scale a (min a.e b.e) (min_le_left _ _),
    toRat_scale b (min a.e b.e) (min_le_right _ _)]
  constructor
  · intro h
    rw [h]
  · intro h
    have h10 : ((10 : ℚ) ^ min a.e b.e) ≠ 0 := by positivity
    exact_mod_cast mul_right_cancel₀ h10 h

lemma pyEqB_iff (a b : PyDecimal) : pyEqB a b = true ↔ toRat a = toRat b := by
  rw [pyEqB, decide_eq_true_iff]; exact cmpKey_eq a b

lemma toRat_dec0 : toRat dec0 = 0 := by norm_num [toRat, dec0]

lemma toRat_pyMax (a b : PyDecimal) : toRat (pyMax a b) = max (toRat a) (toRat b) := by
  unfold pyMax
  by_cases h : pyLtB a b = true
  · rw [if_pos h, max_eq_right ((pyLtB_iff a b).mp h).le]
  · rw [if_neg h, max_eq_left]
    have := (not_iff_not.mpr (pyLtB_iff a b)).mp h
    exact le_of_not_lt (by simpa using this)

lemma pyFix_of_le (d : PyDecimal) (h : numDigits d.c.natAbs ≤ prec) : pyFix d = d := by
  unfold pyFix
  simp [h]

lemma toRat_pyNeg (d : PyDecimal) (h : numDigits d.c.natAbs ≤ prec) :
    toRat (pyNeg d) = -toRat d := by
  unfold pyNeg
  rw [pyFix_of_le ⟨-d.c, d.e⟩ (by simpa using h)]
  unfold toRat
  push_cast
  ring

/-! ### Dates

`datetime.date` / `datetime.datetime` values compare lexicographically by
(year, month, day); only the date part is ever compared in the embedded
queries. -/

/-- A Python date: year, month, day. -/
structure PyDate where
  y : Int
  m : Nat
  d : Nat
deriving DecidableEq

/-- Lexicographic strict order on dates (`date.__lt__`). -/
def dateLtP (a b : PyDate) : Prop :=
  a.y < b.y ∨ (a.y = b.y ∧ (a.m < b.m ∨ (a.m = b.m ∧ a.d < b.d)))

/-- Lexicographic order on dates (`date.__le__`). -/
def dateLeP (a b : PyDate) : Prop :=
  a.y < b.y ∨ (a.y = b.y ∧ (a.m < b.m ∨ (a.m = b.m ∧ a.d ≤ b.d)))

instance (a b : PyDate) : Decidable (dateLtP a b) := by unfold dateLtP; infer_instance

instance (a b : PyDate) : Decidable (dateLeP a b) := by unfold dateLeP; infer_instance

/-- Boolean date comparison used in query filters. -/
def dateLtB (a b : PyDate) : Bool := decide (dateLtP a b)

/-- Boolean date comparison used in query filters. -/
def dateLeB (a b : PyDate) : Bool := decide (dateLeP a b)

/-- Left-pad a natural number with zeros to width `w`. -/
def padNat (w n : Nat) : String :=
  String.mk (List.replicate (w - (natRepr n).length) '0') ++ natRepr n

/-- `date.isoformat()` / `str(date)`: `YYYY-MM-DD` (years are 1–9999 in
Python, so the year is taken nonnegative). -/
def dateStr (d : PyDate) : String :=
  padNat 4 d.y.toNat ++ "-" ++ padNat 2 d.m ++ "-" ++ padNat 2 d.d

/-! ### Data model (`backend/app/models/accounting.py`)

UUID columns are modelled as naturals, `DateTime` timestamps that are only
tested against `NULL` as `Option Nat`, and only the columns the embedded
operations read are carried. -/

/-- `AccountType(str, enum.Enum)`. -/
inductive AccountType where
  | asset
  | liability
  | equity
  | revenue
  | expense
deriving DecidableEq

/-- `TransactionType(str, enum.Enum)`. -/
inductive TransactionType where
  | debit
  | credit
deriving DecidableEq

/-- `Account` ORM row (the columns read by the embedded services). -/
structure Account where
  account_name : String
  account_type : AccountType
deriving DecidableEq

/-- `Transaction` ORM row.  `account` is the relationship to the account row
(`None` when the foreign key dangles, mirroring the `if transaction.account`
guard in the reports). -/
structure Transaction where
  org_id : Nat
  property_id : Option Nat
  account_id : Nat
  transaction_date : PyDate
  transaction_type : TransactionType
  amount : PyDecimal
  account : Option Account
  deleted_at : Option Nat
deriving DecidableEq

/-- `Budget` ORM row, with its `account` relationship. -/
structure Budget where
  org_id : Nat
  property_id : Option Nat
  account_id : Nat
  year : Int
  month : Nat
  budgeted_amount : PyDecimal
  account : Option Account
  deleted_at : Option Nat
deriving DecidableEq

/-- `Invoice` ORM row (the columns read or written by `mark_invoice_paid`). -/
structure Invoice where
  id : Nat
  org_id : Nat
  total_amount : PyDecimal
  amount_paid : PyDecimal
  status : String
  deleted_at : Option Nat
deriving DecidableEq

/-! ### `AccountingService` financial reports
(`backend/app/services/accounting_service.py`) -/

/-- The optional `property_id` filter: applied only when a property id is
passed (`if property_id: query = query.where(...)`). -/
def propMatch (pid : Option Nat) (tpid : Option Nat) : Bool :=
  match pid with
  | none => true
  | some p => decide (tpid = some p)

/-- The shared per-transaction signing step of the three report loops:
`amount = transaction.amount; if transaction.transaction_type ==
TransactionType.CREDIT: amount = -amount`. -/
def signedAmount (t : Transaction) : PyDecimal :=
  if t.transaction_type = TransactionType.credit then pyNeg t.amount else t.amount

/-- The `select(Transaction)` filter shared by `get_profit_loss` and
`get_cash_flow`: organisation, date range (inclusive both ends), not
soft-deleted, optional property. -/
def txInPeriodScope (orgId : Nat) (startD endD : PyDate) (pid : Option Nat)
    (t : Transaction) : Bool :=
  decide (t.org_id = orgId) && dateLeB startD t.transaction_date &&
    dateLeB t.transaction_date endD && decide (t.deleted_at = none) &&
    propMatch pid t.property_id

/-- The `select(Transaction)` filter of `get_balance_sheet`: organisation,
dated on or before `as_of_date`, not soft-deleted, optional property. -/
def bsTxInScope (orgId : Nat) (asOf : PyDate) (pid : Option Nat) (t : Transaction) : Bool :=
  decide (t.org_id = orgId) && dateLeB t.transaction_date asOf &&
    decide (t.deleted_at = none) && propMatch pid t.property_id

/-- Transactions returned by the `get_profit_loss` / `get_cash_flow` query. -/
def plScoped (ts : List Transaction) (orgId : Nat) (startD endD : PyDate)
    (pid : Option Nat) : List Transaction :=
  ts.filter (txInPeriodScope orgId startD endD pid)

/-- Transactions returned by the `get_balance_sheet` query. -/
def bsScoped (ts : List Transaction) (orgId : Nat) (asOf : PyDate)
    (pid : Option Nat) : List Transaction :=
  ts.filter (bsTxInScope orgId asOf pid)

/-- Accumulator state of the `get_profit_loss` loop. -/
structure PLState where
  revenue : PyDecimal
  expenses : PyDecimal
  assets : PyDecimal
  liabilities : PyDecimal
  equity : PyDecimal
deriving DecidableEq

/-- All five buckets start at `Decimal('0')`. -/
def plInit : PLState := ⟨dec0, dec0, dec0, dec0, dec0⟩

/-- Loop body of `get_profit_loss`: skip transactions without a loaded
account (`if transaction.account and transaction.account.account_type`; the
enum member is always truthy), then add the signed amount to the bucket of
the account's type. -/
def plStep (s : PLState) (t : Transaction) : PLState :=
  match t.account with
  | none => s
  | some acc =>
    match acc.account_type with
    | AccountType.revenue => { s with revenue := pyAdd s.revenue (signedAmount t) }
    | AccountType.expense => { s with expenses := pyAdd s.expenses (signedAmount t) }
    | AccountType.asset => { s with assets := pyAdd s.assets (signedAmount t) }
    | AccountType.liability => { s with liabilities := pyAdd s.liabilities (signedAmount t) }
    | AccountType.equity => { s with equity := pyAdd s.equity (signedAmount t) }

/-- The bucket totals computed by the `get_profit_loss` loop. -/
def plBuckets (ts : List Transaction) (orgId : Nat) (startD endD : PyDate)
    (pid : Option Nat) : PLState :=
  (plScoped ts orgId startD endD pid).foldl plStep plInit

/-- Result dictionary of `get_profit_loss`. -/
structure PLResult where
  period : String
  property_id : Option String
  revenue : String
  expenses : String
  net_income : String
  gross_profit_margin : String
deriving DecidableEq

/-- `AccountingService.get_profit_loss` over an explicit transaction table. -/
def get_profit_loss (ts : List Transaction) (orgId : Nat) (startD endD : PyDate)
    (pid : Option Nat) : PLResult :=
  let st := plBuckets ts orgId startD endD pid
  let net := pySub st.revenue st.expenses
  { period := dateStr startD ++ " to " ++ dateStr endD
    property_id := pid.map natRepr
    revenue := decStr st.revenue
    expenses := decStr st.expenses
    net_income := decStr net
    gross_profit_margin :=
      if !pyEqB st.revenue dec0 then decStr (pyMul (pyDiv net st.revenue) dec100) else "0" }

/-- Accumulator state of the `get_balance_sheet` loop. -/
structure BSState where
  assets : PyDecimal
  liabilities : PyDecimal
  equity : PyDecimal
deriving DecidableEq

/-- The three balance-sheet buckets start at `Decimal('0')`. -/
def bsInit : BSState := ⟨dec0, dec0, dec0⟩

/-- Loop body of `get_balance_sheet`: only asset / liability / equity
accounts are accumulated. -/
def bsStep (s : BSState) (t : Transaction) : BSState :=
  match t.account with
  | none => s
  | some acc =>
    match acc.account_type with
    | AccountType.asset => { s with assets := pyAdd s.assets (signedAmount t) }
    | AccountType.liability => { s with liabilities := pyAdd s.liabilities (signedAmount t) }
    | AccountType.equity => { s with equity := pyAdd s.equity (signedAmount t) }
    | _ => s

/-- The bucket totals computed by the `get_balance_sheet` loop. -/
def bsBuckets (ts : List Transaction) (orgId : Nat) (asOf : PyDate)
    (pid : Option Nat) : BSState :=
  (bsScoped ts orgId asOf pid).foldl bsStep bsInit

/-- Result dictionary of `get_balance_sheet`. -/
structure BSResult where
  as_of_date : String
  property_id : Option String
  assets : String
  liabilities : String
  equity : String
  total_liabilities_and_equity : String
  balance_check : String
deriving DecidableEq

/-- `AccountingService.get_balance_sheet` over an explicit transaction
table.  `balance_check` is returned as a field of the result; no branch
inspects it, so an unbalanced ledger is reported, never rejected. -/
def get_balance_sheet (ts : List Transaction) (orgId : Nat) (asOf : PyDate)
    (pid : Option Nat) : BSResult :=
  let st := bsBuckets ts orgId asOf pid
  { as_of_date := dateStr asOf
    property_id := pid.map natRepr
    assets := decStr st.assets
    liabilities := decStr st.liabilities
    equity := decStr st.equity
    total_liabilities_and_equity := decStr (pyAdd st.liabilities st.equity)
    balance_check := decStr (pySub st.assets (pyAdd st.liabilities st.equity)) }

/-- Accumulator state of the `get_cash_flow` loop. -/
structure CFState where
  operating : PyDecimal
  investing : PyDecimal
  financing : PyDecimal
deriving DecidableEq

/-- The three cash-flow buckets start at `Decimal('0')`. -/
def cfInit : CFState := ⟨dec0, dec0, dec0⟩

/-- Loop body of `get_cash_flow`: revenue/expense accounts feed operating
cash flow, asset accounts investing, liability/equity accounts financing. -/
def cfStep (s : CFState) (t : Transaction) : CFState :=
  match t.account with
  | none => s
  | some acc =>
    if acc.account_type = AccountType.revenue ∨ acc.account_type = AccountType.expense then
      { s with operating := pyAdd s.operating (signedAmount t) }
    else if acc.account_type = AccountType.asset then
      { s with investing := pyAdd s.investing (signedAmount t) }
    else if acc.account_type = AccountType.liability ∨ acc.account_type = AccountType.equity then
      { s with financing := pyAdd s.financing (signedAmount t) }
    else s

/-- The bucket totals computed by the `get_cash_flow` loop. -/
def cfBuckets (ts : List Transaction) (orgId : Nat) (startD endD : PyDate)
    (pid : Option Nat) : CFState :=
  (plScoped ts orgId startD endD pid).foldl cfStep cfInit

/-- Result dictionary of `get_cash_flow`. -/
structure CFResult where
  period : String
  property_id : Option String
  operating_cash_flow : String
  investing_cash_flow : String
  financing_cash_flow : String
  net_cash_flow : String
deriving DecidableEq

/-- `AccountingService.get_cash_flow` over an explicit transaction table. -/
def get_cash_flow (ts : List Transaction) (orgId : Nat) (startD endD : PyDate)
    (pid : Option Nat) : CFResult :=
  let st := cfBuckets ts orgId startD endD pid
  { period := dateStr startD ++ " to " ++ dateStr endD
    property_id := pid.map natRepr
    operating_cash_flow := decStr st.operating
    investing_cash_flow := decStr st.investing
    financing_cash_flow := decStr st.financing
    net_cash_flow := decStr (pyAdd (pyAdd st.operating st.investing) st.financing) }

/-! ### `AccountingService.get_budget_vs_actual` -/

/-- Budget filter: organisation, not soft-deleted, then optional property /
year / month filters.  The year and month parameters default to `None` and
are tested for truthiness (`if year:`), so `0` also disables the filter. -/
def budgetInScope (orgId : Nat) (pid : Option Nat) (year : Option Int)
    (month : Option Nat) (b : Budget) : Bool :=
  decide (b.org_id = orgId) && decide (b.deleted_at = none) &&
    propMatch pid b.property_id &&
    (match year with
     | none => true
     | some y => if y = 0 then true else decide (b.year = y)) &&
    (match month with
     | none => true
     | some m => if m = 0 then true else decide (b.month = m))

/-- `start_date = date(budget.year, budget.month, 1)`. -/
def budgetStart (b : Budget) : PyDate := ⟨b.year, b.month, 1⟩

/-- First day of the following month; December rolls into January of the
next year. -/
def budgetEnd (b : Budget) : PyDate :=
  if b.month = 12 then ⟨b.year + 1, 1, 1⟩ else ⟨b.year, b.month + 1, 1⟩

/-- Per-budget transaction filter: organisation, exact account, transaction
date in `[start_date, end_date)`, not soft-deleted. -/
def budgetTxInScope (orgId : Nat) (b : Budget) (t : Transaction) : Bool :=
  decide (t.org_id = orgId) && decide (t.account_id = b.account_id) &&
    dateLeB (budgetStart b) t.transaction_date &&
    dateLtB t.transaction_date (budgetEnd b) &&
    decide (t.deleted_at = none)

/-- `actual_amount = sum(t.amount for t in actual_transactions)`: Python's
`sum` starts from the `int` 0, which promotes to `Decimal(0)` on the first
decimal addition. -/
def budgetActual (ts : List Transaction) (orgId : Nat) (b : Budget) : PyDecimal :=
  ((ts.filter (budgetTxInScope orgId b)).map Transaction.amount).foldl pyAdd dec0

/-- One entry of the `budgets` list in the result of `get_budget_vs_actual`. -/
structure BudgetRow where
  account_id : String
  account_name : String
  budgeted_amount : String
  actual_amount : String
  variance : String
  variance_percentage : String
deriving DecidableEq

/-- Loop body of `get_budget_vs_actual` for one budget row. -/
def budgetRow (ts : List Transaction) (orgId : Nat) (b : Budget) : BudgetRow :=
  let actual := budgetActual ts orgId b
  let variance := pySub b.budgeted_amount actual
  { account_id := natRepr b.account_id
    account_name := match b.account with
      | some a => a.account_name
      | none => "Unknown"
    budgeted_amount := decStr b.budgeted_amount
    actual_amount := decStr actual
    variance := decStr variance
    variance_percentage :=
      if !pyEqB b.budgeted_amount dec0 then
        decStr (pyMul (pyDiv variance b.budgeted_amount) dec100)
      else "0" }

/-- Result dictionary of `get_budget_vs_actual`. -/
structure BvAResult where
  period : String
  property_id : Option String
  total_budgeted : String
  total_actual : String
  total_variance : String
  budgets : List BudgetRow
deriving DecidableEq

/-- `AccountingService.get_budget_vs_actual` over explicit budget and
transaction tables.  The running `total_budgeted` / `total_actual`
accumulators of the source loop are expressed as folds over the same
filtered budget list the loop iterates. -/
def get_budget_vs_actual (budgets : List Budget) (ts : List Transaction)
    (orgId : Nat) (pid : Option Nat) (year : Option Int) (month : Option Nat) :
    BvAResult :=
  let bs := budgets.filter (budgetInScope orgId pid year month)
  let totB := (bs.map Budget.budgeted_amount).foldl pyAdd dec0
  let totA := (bs.map (budgetActual ts orgId)).foldl pyAdd dec0
  { period :=
      match year, month with
      | some y, some m =>
        if y ≠ 0 ∧ m ≠ 0 then intRepr y ++ "-" ++ padNat 2 m else "All"
      | _, _ => "All"
    property_id := pid.map natRepr
    total_budgeted := decStr totB
    total_actual := decStr totA
    total_variance := decStr (pySub totB totA)
    budgets := bs.map (budgetRow ts orgId) }

/-! ### `AccountingService.mark_invoice_paid` -/

/-- Invoice lookup filter of `mark_invoice_paid`. -/
def invoiceMatch (invoiceId orgId : Nat) (i : Invoice) : Bool :=
  decide (i.id = invoiceId) && decide (i.org_id = orgId) && decide (i.deleted_at = none)

/-- `AccountingService.mark_invoice_paid` over an explicit invoice table.
`scalar_one_or_none` yields the row when exactly one matches and `None`
when none does (several matches raise in SQLAlchemy; that branch is
likewise mapped to `none` and is outside every claim).  On a hit the
invoice's `amount_paid` is set to `amount` as given and the status derived
by `amount >= invoice.total_amount`; the `payment_date` parameter is never
read.  No validation caps the amount. -/
def mark_invoice_paid (invoices : List Invoice) (invoiceId orgId : Nat)
    (_payment_date : PyDate) (amount : PyDecimal) : Option Invoice :=
  match invoices.filter (invoiceMatch invoiceId orgId) with
  | [inv] =>
    some { inv with
      amount_paid := amount
      status := if pyLeB inv.total_amount amount then "paid" else "partially_paid" }
  | _ => none

/-! ### `HUDService.calculate_tenant_rent`
(`backend/app/services/hud_service.py`) -/

/-- `monthly_income = household_income / Decimal("12")`. -/
def hudMonthlyIncome (household_income : PyDecimal) : PyDecimal :=
  pyDiv household_income dec12

/-- `tenant_rent_portion = monthly_income * Decimal("0.30")`. -/
def hudTenantPortion (household_income : PyDecimal) : PyDecimal :=
  pyMul (hudMonthlyIncome household_income) dec030

/-- `tenant_rent_after_utilities = max(Decimal("0"), tenant_rent_portion -
utility_allowance)`. -/
def hudTenantRent (household_income utility_allowance : PyDecimal) : PyDecimal :=
  pyMax dec0 (pySub (hudTenantPortion household_income) utility_allowance)

/-- `subsidy_amount = max(Decimal("0"), contract_rent -
tenant_rent_after_utilities)`. -/
def hudSubsidy (household_income utility_allowance contract_rent : PyDecimal) : PyDecimal :=
  pyMax dec0 (pySub contract_rent (hudTenantRent household_income utility_allowance))

/-- Result dictionary of `calculate_tenant_rent`.  The last field is the
source's rent-to-income percentage entry. -/
structure RentResult where
  tenant_rent : String
  subsidy_amount : String
  total_contract_rent : String
  utility_allowance : String
  monthly_income : String
  rent_to_income_percent : String
deriving DecidableEq

/-- `HUDService.calculate_tenant_rent`: a pure function of its arguments
(`household_size` is accepted but never read by the computation). -/
def calculate_tenant_rent (household_income : PyDecimal) (_household_size : Nat)
    (utility_allowance contract_rent : PyDecimal) : RentResult :=
  let monthly := hudMonthlyIncome household_income
  let tenant := hudTenantRent household_income utility_allowance
  { tenant_rent := decStr tenant
    subsidy_amount := decStr (hudSubsidy household_income utility_allowance contract_rent)
    total_contract_rent := decStr contract_rent
    utility_allowance := decStr utility_allowance
    monthly_income := decStr monthly
    rent_to_income_percent :=
      if pyLtB dec0 monthly then decStr (pyMul (pyDiv tenant monthly) dec100) else "0" }

/-! ### Bucket decomposition of the report loops -/

/-- The signed amounts of the transactions (with a loaded account) whose
account type satisfies `p`, in list order. -/
def bucketItems (p : AccountType → Bool) (l : List Transaction) : List PyDecimal :=
  l.filterMap fun t =>
    match t.account with
    | some acc => if p acc.account_type then some (signedAmount t) else none
    | none => none

lemma plFold_spec (l : List Transaction) : ∀ s : PLState,
    l.foldl plStep s =
      ⟨(bucketItems (· == AccountType.revenue) l).foldl pyAdd s.revenue,
       (bucketItems (· == AccountType.expense) l).foldl pyAdd s.expenses,
       (bucketItems (· == AccountType.asset) l).foldl pyAdd s.assets,
       (bucketItems (· == AccountType.liability) l).foldl pyAdd s.liabilities,
       (bucketItems (· == AccountType.equity) l).foldl pyAdd s.equity⟩ := by
  induction l with
  | nil => intro s; rfl
  | cons t l ih =>
    intro s
    rcases ht : t.account with _ | acc
    · simp only [List.foldl_cons, plStep, ht, bucketItems, List.filterMap_cons, ih]
    · cases hat : acc.account_type <;>
        simp_all [plStep, bucketItems, List.filterMap_cons]

lemma bsFold_spec (l : List Transaction) : ∀ s : BSState,
    l.foldl bsStep s =
      ⟨(bucketItems (· == AccountType.asset) l).foldl pyAdd s.assets,
       (bucketItems (· == AccountType.liability) l).foldl pyAdd s.liabilities,
       (bucketItems (· == AccountType.equity) l).foldl pyAdd s.equity⟩ := by
  induction l with
  | nil => intro s; rfl
  | cons t l ih =>
    intro s
    rcases ht : t.account with _ | acc
    · simp only [List.foldl_cons, bsStep, ht, bucketItems, List.filterMap_cons, ih]
    · cases hat : acc.account_type <;>
        simp_all [bsStep, bucketItems, List.filterMap_cons]

lemma cfFold_spec (l : List Transaction) : ∀ s : CFState,
    l.foldl cfStep s =
      ⟨(bucketItems (fun a => a == AccountType.revenue || a == AccountType.expense) l).foldl
         pyAdd s.operating,
       (bucketItems (· == AccountType.asset) l).foldl pyAdd s.investing,
       (bucketItems (fun a => a == AccountType.liability || a == AccountType.equity) l).foldl
         pyAdd s.financing⟩ := by
  induction l with
  | nil => intro s; rfl
  | cons t l ih =>
    intro s
    rcases ht : t.account with _ | acc
    · simp only [List.foldl_cons, cfStep, ht, bucketItems, List.filterMap_cons, ih]
    · cases hat : acc.account_type <;>
        simp_all [cfStep, bucketItems, List.filterMap_cons]

/-- Claim C1: in the profit-and-loss, balance-sheet, and cash-flow
aggregations, every bucket is the running decimal sum of the per-transaction
amounts where a credit transaction's amount is negated before accumulation
and a debit transaction's amount enters unmodified (the negation being exact
value negation for any coefficient within the context precision). -/
theorem claim_C1 (ts : List Transaction) (orgId : Nat) (startD endD asOf : PyDate)
    (pid : Option Nat) :
    ((plBuckets ts orgId startD endD pid).revenue =
        (bucketItems (· == AccountType.revenue) (plScoped ts orgId startD endD pid)).foldl
          pyAdd dec0 ∧
      (plBuckets ts orgId startD endD pid).expenses =
        (bucketItems (· == AccountType.expense) (plScoped ts orgId startD endD pid)).foldl
          pyAdd dec0 ∧
      (plBuckets ts orgId startD endD pid).assets =
        (bucketItems (· == AccountType.asset) (plScoped ts orgId startD endD pid)).foldl
          pyAdd dec0 ∧
      (plBuckets ts orgId startD endD pid).liabilities =
        (bucketItems (· == AccountType.liability) (plScoped ts orgId startD endD pid)).foldl
          pyAdd dec0 ∧
      (plBuckets ts orgId startD endD pid).equity =
        (bucketItems (· == AccountType.equity) (plScoped ts orgId startD endD pid)).foldl
          pyAdd dec0) ∧
    ((bsBuckets ts orgId asOf pid).assets =
        (bucketItems (· == AccountType.asset) (bsScoped ts orgId asOf pid)).foldl pyAdd dec0 ∧
      (bsBuckets ts orgId asOf pid).liabilities =
        (bucketItems (· == AccountType.liability) (bsScoped ts orgId asOf pid)).foldl
          pyAdd dec0 ∧
      (bsBuckets ts orgId asOf pid).equity =
        (bucketItems (· == AccountType.equity) (bsScoped ts orgId asOf pid)).foldl pyAdd dec0) ∧
    ((cfBuckets ts orgId startD endD pid).operating =
        (bucketItems (fun a => a == AccountType.revenue || a == AccountType.expense)
          (plScoped ts orgId startD endD pid)).foldl pyAdd dec0 ∧
      (cfBuckets ts orgId startD endD pid).investing =
        (bucketItems (· == AccountType.asset) (plScoped ts orgId startD endD pid)).foldl
          pyAdd dec0 ∧
      (cfBuckets ts orgId startD endD pid).financing =
        (bucketItems (fun a => a == AccountType.liability || a == AccountType.equity)
          (plScoped ts orgId startD endD pid)).foldl pyAdd dec0) ∧
    (∀ t : Transaction, numDigits t.amount.c.natAbs ≤ prec →
      (t.transaction_type = TransactionType.credit →
        toRat (signedAmount t) = -toRat t.amount) ∧
      (t.transaction_type = TransactionType.debit → signedAmount t = t.amount)) := by
  refine ⟨⟨?_, ?_, ?_, ?_, ?_⟩, ⟨?_, ?_, ?_⟩, ⟨?_, ?_, ?_⟩, ?_⟩
  · rw [plBuckets, plFold_spec]; rfl
  · rw [plBuckets, plFold_spec]; rfl
  · rw [plBuckets, plFold_spec]; rfl
  · rw [plBuckets, plFold_spec]; rfl
  · rw [plBuckets, plFold_spec]; rfl
  · rw [bsBuckets, bsFold_spec]; rfl
  · rw [bsBuckets, bsFold_spec]; rfl
  · rw [bsBuckets, bsFold_spec]; rfl
  · rw [cfBuckets, cfFold_spec]; rfl
  · rw [cfBuckets, cfFold_spec]; rfl
  · rw [cfBuckets, cfFold_spec]; rfl
  · intro t h
    constructor
    · intro hc
      rw [signedAmount, if_pos hc]
      exact toRat_pyNeg t.amount h
    · intro hd
      rw [signedAmount, if_neg (by rw [hd]; exact fun hx => TransactionType.noConfusion hx)]

/-- Witness for C1 at a concrete credit transaction of 5.00: its signed
contribution is exactly `-5.00`. -/
theorem claim_C1_witness :
    toRat (signedAmount
      ⟨1, none, 1, ⟨2024, 1, 1⟩, TransactionType.credit, ⟨500, -2⟩,
        some ⟨"Rent income", AccountType.revenue⟩, none⟩) =
      -toRat (⟨500, -2⟩ : PyDecimal) :=
  ((claim_C1 [] 0 ⟨2024, 1, 1⟩ ⟨2024, 12, 31⟩ ⟨2024, 12, 31⟩ none).2.2.2 _
    (by decide)).1 rfl

lemma filter_middle_false {α : Type} (p : α → Bool) (l1 l2 : List α) (x : α)
    (h : p x = false) : (l1 ++ x :: l2).filter p = (l1 ++ l2).filter p := by
  simp [List.filter_append, List.filter_cons, h]

/-- Claim C4: a transaction whose `deleted_at` is set is invisible to all
four aggregations: inserting it anywhere into the transaction table leaves
profit-and-loss, balance-sheet, cash-flow, and budget-vs-actual unchanged
(equivalently, soft-deleting an existing transaction removes its
contribution). -/
theorem claim_C4 (ts1 ts2 : List Transaction) (t : Transaction) (budgets : List Budget)
    (orgId : Nat) (startD endD asOf : PyDate) (pid : Option Nat) (year : Option Int)
    (month : Option Nat) (h : t.deleted_at ≠ none) :
    get_profit_loss (ts1 ++ t :: ts2) orgId startD endD pid =
      get_profit_loss (ts1 ++ ts2) orgId startD endD pid ∧
    get_balance_sheet (ts1 ++ t :: ts2) orgId asOf pid =
      get_balance_sheet (ts1 ++ ts2) orgId asOf pid ∧
    get_cash_flow (ts1 ++ t :: ts2) orgId startD endD pid =
      get_cash_flow (ts1 ++ ts2) orgId startD endD pid ∧
    get_budget_vs_actual budgets (ts1 ++ t :: ts2) orgId pid year month =
      get_budget_vs_actual budgets (ts1 ++ ts2) orgId pid year month := by
  have hscope1 : plScoped (ts1 ++ t :: ts2) orgId startD endD pid =
      plScoped (ts1 ++ ts2) orgId startD endD pid := by
    unfold plScoped
    exact filter_middle_false _ _ _ _ (by simp [txInPeriodScope, h])
  have hscope2 : bsScoped (ts1 ++ t :: ts2) orgId asOf pid =
      bsScoped (ts1 ++ ts2) orgId asOf pid := by
    unfold bsScoped
    exact filter_middle_false _ _ _ _ (by simp [bsTxInScope, h])
  have hba : budgetActual (ts1 ++ t :: ts2) orgId = budgetActual (ts1 ++ ts2) orgId := by
    funext b
    unfold budgetActual
    rw [filter_middle_false _ _ _ _ (by simp [budgetTxInScope, h])]
  have hrow : budgetRow (ts1 ++ t :: ts2) orgId = budgetRow (ts1 ++ ts2) orgId := by
    funext b
    unfold budgetRow
    rw [hba]
  refine ⟨?_, ?_, ?_, ?_⟩
  · unfold get_profit_loss plBuckets
    rw [hscope1]
  · unfold get_balance_sheet bsBuckets
    rw [hscope2]
  · unfold get_cash_flow cfBuckets
    rw [hscope1]
  · unfold get_budget_vs_actual
    rw [hba, hrow]

/-- Witness for C4: a soft-deleted 5.00 credit revenue transaction leaves
the profit-and-loss report the same as the empty ledger. -/
theorem claim_C4_witness :
    get_profit_loss
        [⟨1, none, 1, ⟨2024, 6, 1⟩, TransactionType.credit, ⟨500, -2⟩,
          some ⟨"Rent income", AccountType.revenue⟩, some 17⟩] 1
        ⟨2024, 1, 1⟩ ⟨2024, 12, 31⟩ none =
      get_profit_loss [] 1 ⟨2024, 1, 1⟩ ⟨2024, 12, 31⟩ none :=
  (claim_C4 [] []
    ⟨1, none, 1, ⟨2024, 6, 1⟩, TransactionType.credit, ⟨500, -2⟩,
      some ⟨"Rent income", AccountType.revenue⟩, some 17⟩ [] 1
    ⟨2024, 1, 1⟩ ⟨2024, 12, 31⟩ ⟨2024, 12, 31⟩ none none none (by decide)).1

/-- Claim C7: `get_profit_loss` guards its only division: when the revenue
bucket's value is zero the `gross_profit_margin` field is the string `"0"`,
and the quotient `net_income / revenue * 100` is only computed when the
revenue value is nonzero. -/
theorem claim_C7 (ts : List Transaction) (orgId : Nat) (startD endD : PyDate)
    (pid : Option Nat) :
    (toRat (plBuckets ts orgId startD endD pid).revenue = 0 →
      (get_profit_loss ts orgId startD endD pid).gross_profit_margin = "0") ∧
    (toRat (plBuckets ts orgId startD endD pid).revenue ≠ 0 →
      (get_profit_loss ts orgId startD endD pid).gross_profit_margin =
        decStr (pyMul (pyDiv
          (pySub (plBuckets ts orgId startD endD pid).revenue
            (plBuckets ts orgId startD endD pid).expenses)
          (plBuckets ts orgId startD endD pid).revenue) dec100)) := by
  constructor
  · intro h0
    have he : pyEqB (plBuckets ts orgId startD endD pid).revenue dec0 = true := by
      rw [pyEqB_iff, toRat_dec0]
      exact h0
    unfold get_profit_loss
    simp [he]
  · intro h0
    have he : pyEqB (plBuckets ts orgId startD endD pid).revenue dec0 = false := by
      rw [← Bool.not_eq_true, pyEqB_iff, toRat_dec0]
      exact h0
    unfold get_profit_loss
    simp [he]

/-- Witness for C7: on the empty ledger the revenue bucket is zero and the
margin field is the string `"0"`. -/
theorem claim_C7_witness :
    (get_profit_loss [] 1 ⟨2024, 1, 1⟩ ⟨2024, 12, 31⟩ none).gross_profit_margin = "0" :=
  (claim_C7 [] 1 ⟨2024, 1, 1⟩ ⟨2024, 12, 31⟩ none).1
    (by rw [show plBuckets [] 1 ⟨2024, 1, 1⟩ ⟨2024, 12, 31⟩ none = plInit from rfl]
        exact toRat_dec0)

/-- Claim C8: `get_balance_sheet` reports the asset / liability / equity
totals of the non-deleted transactions dated on or before the as-of date,
plus a `balance_check` field equal to `assets - (liabilities + equity)`;
the value is returned as a field of the result record (the function is
total and never rejects an unbalanced ledger). -/
theorem claim_C8 (ts : List Transaction) (orgId : Nat) (asOf : PyDate) (pid : Option Nat) :
    (get_balance_sheet ts orgId asOf pid).assets =
      decStr (bsBuckets ts orgId asOf pid).assets ∧
    (get_balance_sheet ts orgId asOf pid).liabilities =
      decStr (bsBuckets ts orgId asOf pid).liabilities ∧
    (get_balance_sheet ts orgId asOf pid).equity =
      decStr (bsBuckets ts orgId asOf pid).equity ∧
    (get_balance_sheet ts orgId asOf pid).total_liabilities_and_equity =
      decStr (pyAdd (bsBuckets ts orgId asOf pid).liabilities
        (bsBuckets ts orgId asOf pid).equity) ∧
    (get_balance_sheet ts orgId asOf pid).balance_check =
      decStr (pySub (bsBuckets ts orgId asOf pid).assets
        (pyAdd (bsBuckets ts orgId asOf pid).liabilities
          (bsBuckets ts orgId asOf pid).equity)) ∧
    (∀ t : Transaction, t ∈ bsScoped ts orgId asOf pid ↔
      t ∈ ts ∧ t.org_id = orgId ∧ dateLeP t.transaction_date asOf ∧
        t.deleted_at = none ∧ (pid = none ∨ t.property_id = pid)) := by
  refine ⟨rfl, rfl, rfl, rfl, rfl, ?_⟩
  intro t
  rw [bsScoped, List.mem_filter]
  cases pid <;>
    simp [bsTxInScope, dateLeB, propMatch, and_assoc]

lemma budget_window_iff (b : Budget) (d : PyDate)
    (hm1 : 1 ≤ b.month) (hm12 : b.month ≤ 12)
    (hdm1 : 1 ≤ d.m) (hdm12 : d.m ≤ 12) (hdd : 1 ≤ d.d) :
    (dateLeP (budgetStart b) d ∧ dateLtP d (budgetEnd b)) ↔
      (d.y = b.year ∧ d.m = b.month) := by
  unfold budgetStart budgetEnd dateLeP dateLtP
  by_cases h12 : b.month = 12
  · rw [if_pos h12]
    dsimp only
    omega
  · rw [if_neg h12]
    dsimp only
    omega

/-- Claim C5: each row of `get_budget_vs_actual` is the per-budget
recomputation: the actual total sums exactly the transactions of that
account falling in the budget's month (first day inclusive to the first day
of the following month exclusive, December rolling into January of the next
year — equivalently, for calendar-valid dates, the transactions whose date
has that year and month); `variance` is `budgeted_amount - actual`, and
`variance_percentage` is `"0"` when the budgeted amount is zero and
`variance / budgeted_amount * 100` otherwise. -/
theorem claim_C5 (budgets : List Budget) (ts : List Transaction) (orgId : Nat)
    (pid : Option Nat) (year : Option Int) (month : Option Nat) (b : Budget)
    (hm1 : 1 ≤ b.month) (hm12 : b.month ≤ 12)
    (hts : ∀ t ∈ ts, 1 ≤ t.transaction_date.m ∧ t.transaction_date.m ≤ 12 ∧
      1 ≤ t.transaction_date.d) :
    (get_budget_vs_actual budgets ts orgId pid year month).budgets =
      (budgets.filter (budgetInScope orgId pid year month)).map (budgetRow ts orgId) ∧
    budgetActual ts orgId b =
      ((ts.filter fun t =>
          decide (t.org_id = orgId) && decide (t.account_id = b.account_id) &&
          decide (t.transaction_date.y = b.year) &&
          decide (t.transaction_date.m = b.month) &&
          decide (t.deleted_at = none)).map Transaction.amount).foldl pyAdd dec0 ∧
    (budgetRow ts orgId b).actual_amount = decStr (budgetActual ts orgId b) ∧
    (budgetRow ts orgId b).variance =
      decStr (pySub b.budgeted_amount (budgetActual ts orgId b)) ∧
    (toRat b.budgeted_amount = 0 → (budgetRow ts orgId b).variance_percentage = "0") ∧
    (toRat b.budgeted_amount ≠ 0 → (budgetRow ts orgId b).variance_percentage =
      decStr (pyMul (pyDiv (pySub b.budgeted_amount (budgetActual ts orgId b))
        b.budgeted_amount) dec100)) := by
  refine ⟨rfl, ?_, rfl, rfl, ?_, ?_⟩
  · unfold budgetActual
    rw [List.filter_congr ?_]
    intro t ht
    have hv := hts t ht
    have hw := budget_window_iff b t.transaction_date hm1 hm12 hv.1 hv.2.1 hv.2.2
    unfold budgetTxInScope dateLeB dateLtB
    rw [Bool.eq_iff_iff]
    simp only [Bool.and_eq_true, decide_eq_true_iff]
    constructor
    · rintro ⟨⟨⟨⟨ho, ha⟩, hle⟩, hlt⟩, hd⟩
      have := hw.mp ⟨hle, hlt⟩
      exact ⟨⟨⟨⟨ho, ha⟩, this.1⟩, this.2⟩, hd⟩
    · rintro ⟨⟨⟨⟨ho, ha⟩, hy⟩, hmo⟩, hd⟩
      have := hw.mpr ⟨hy, hmo⟩
      exact ⟨⟨⟨⟨ho, ha⟩, this.1⟩, this.2⟩, hd⟩
  · intro h0
    have he : pyEqB b.budgeted_amount dec0 = true := by
      rw [pyEqB_iff, toRat_dec0]
      exact h0
    unfold budgetRow
    simp [he]
  · intro h0
    have he : pyEqB b.budgeted_amount dec0 = false := by
      rw [← Bool.not_eq_true, pyEqB_iff, toRat_dec0]
      exact h0
    unfold budgetRow
    simp [he]

/-- Witness for C5: a December 2024 budget for account 7 with a zero
budgeted amount, against a single in-window transaction of 250.00: the
actual equals the same-year-same-month sum and the percentage field is the
string `"0"` rather than a division error. -/
theorem claim_C5_witness :
    budgetActual
        [⟨1, none, 7, ⟨2024, 12, 15⟩, TransactionType.debit, ⟨25000, -2⟩, none, none⟩]
        1 ⟨1, none, 7, 2024, 12, ⟨0, 0⟩, none, none⟩ =
      (([⟨1, none, 7, ⟨2024, 12, 15⟩, TransactionType.debit, ⟨25000, -2⟩, none,
          none⟩].filter fun t =>
          decide (t.org_id = 1) && decide (t.account_id = 7) &&
          decide (t.transaction_date.y = 2024) && decide (t.transaction_date.m = 12) &&
          decide (t.deleted_at = none)).map Transaction.amount).foldl pyAdd dec0 ∧
    (budgetRow
        [⟨1, none, 7, ⟨2024, 12, 15⟩, TransactionType.debit, ⟨25000, -2⟩, none, none⟩]
        1 ⟨1, none, 7, 2024, 12, ⟨0, 0⟩, none, none⟩).variance_percentage = "0" := by
  have h := claim_C5 []
    [⟨1, none, 7, ⟨2024, 12, 15⟩, TransactionType.debit, ⟨25000, -2⟩, none, none⟩]
    1 none none none ⟨1, none, 7, 2024, 12, ⟨0, 0⟩, none, none⟩
    (by decide) (by decide) (by decide)
  exact ⟨h.2.1, h.2.2.2.2.1 (by norm_num [toRat])⟩

/-- Claim C9: unlike the three report loops, `get_budget_vs_actual` sums
the raw transaction amounts with no sign adjustment: a credit transaction
in the budget window contributes `+amount` to `actual_amount`, so one debit
and one credit of equal amount give `2 * amount` — nonzero whenever the
amount is — rather than cancelling.  (The `hex` hypotheses state that the
two concrete decimal additions involved are exact, which holds whenever the
running coefficient stays within the 28-digit context precision.) -/
theorem claim_C9 (orgId : Nat) (b : Budget) (t1 t2 : Transaction)
    (h1 : budgetTxInScope orgId b t1 = true) (h2 : budgetTxInScope orgId b t2 = true)
    (hd : t1.transaction_type = TransactionType.debit)
    (hc : t2.transaction_type = TransactionType.credit)
    (hamt : t1.amount = t2.amount)
    (hex1 : toRat (pyAdd dec0 t2.amount) = toRat t2.amount)
    (hex2 : toRat (pyAdd (pyAdd dec0 t1.amount) t2.amount) =
      toRat (pyAdd dec0 t1.amount) + toRat t2.amount) :
    toRat (budgetActual [t2] orgId b) = toRat t2.amount ∧
    toRat (budgetActual [t1, t2] orgId b) = toRat t2.amount + toRat t2.amount ∧
    (toRat t2.amount ≠ 0 → toRat (budgetActual [t1, t2] orgId b) ≠ 0) := by
  have e1 : budgetActual [t2] orgId b = pyAdd dec0 t2.amount := by
    unfold budgetActual
    simp [List.filter_cons, h2]
  have e2 : budgetActual [t1, t2] orgId b = pyAdd (pyAdd dec0 t1.amount) t2.amount := by
    unfold budgetActual
    simp [List.filter_cons, h1, h2]
  refine ⟨by rw [e1, hex1], by rw [e2, hex2, hamt, hex1], ?_⟩
  intro hne hzz
  rw [e2, hex2, hamt, hex1] at hzz
  apply hne
  linarith

/-- Witness for C9: a debit and a credit of 5.00 each, both inside the
May 2024 budget window of account 7, total 10.00 — not zero. -/
theorem claim_C9_witness :
    toRat (budgetActual
      [⟨1, none, 7, ⟨2024, 5, 10⟩, TransactionType.debit, ⟨500, -2⟩, none, none⟩,
       ⟨1, none, 7, ⟨2024, 5, 20⟩, TransactionType.credit, ⟨500, -2⟩, none, none⟩]
      1 ⟨1, none, 7, 2024, 5, ⟨100000, -2⟩, none, none⟩) ≠ 0 :=
  (claim_C9 1 ⟨1, none, 7, 2024, 5, ⟨100000, -2⟩, none, none⟩
    ⟨1, none, 7, ⟨2024, 5, 10⟩, TransactionType.debit, ⟨500, -2⟩, none, none⟩
    ⟨1, none, 7, ⟨2024, 5, 20⟩, TransactionType.credit, ⟨500, -2⟩, none, none⟩
    (by decide) (by decide) rfl rfl rfl
    (by show toRat (pyAdd dec0 ⟨500, -2⟩) = toRat ⟨500, -2⟩
        rw [show pyAdd dec0 (⟨500, -2⟩ : PyDecimal) = ⟨500, -2⟩ from by decide])
    (by show toRat (pyAdd (pyAdd dec0 ⟨500, -2⟩) ⟨500, -2⟩) =
          toRat (pyAdd dec0 ⟨500, -2⟩) + toRat ⟨500, -2⟩
        rw [show pyAdd dec0 (⟨500, -2⟩ : PyDecimal) = ⟨500, -2⟩ from by decide,
          show pyAdd (⟨500, -2⟩ : PyDecimal) ⟨500, -2⟩ = ⟨1000, -2⟩ from by decide]
        norm_num [toRat])).2.2
    (by norm_num [toRat])

/-- Claim C2: `calculate_tenant_rent` is a pure function whose value
semantics are `tenant_rent = max(0, (household_income / 12) * 0.30 -
utility_allowance)` and `subsidy_amount = max(0, contract_rent -
tenant_rent)`; in particular, when the utility allowance exceeds 30% of the
(decimal) monthly income, the tenant rent is 0 and the subsidy is the full
(nonnegative) contract rent.  Division is performed at the 28-digit context
precision; the `hmul`/`hsub` hypotheses state that the subsequent
multiplication and subtractions are value-exact, which holds whenever the
operands stay within the context precision. -/
theorem claim_C2 (household_income utility_allowance contract_rent : PyDecimal)
    (hmul : toRat (hudTenantPortion household_income) =
      toRat (hudMonthlyIncome household_income) * (3 / 10))
    (hsub1 : toRat (pySub (hudTenantPortion household_income) utility_allowance) =
      toRat (hudTenantPortion household_income) - toRat utility_allowance)
    (hsub2 : toRat (pySub contract_rent (hudTenantRent household_income utility_allowance)) =
      toRat contract_rent - toRat (hudTenantRent household_income utility_allowance)) :
    toRat (hudTenantRent household_income utility_allowance) =
      max 0 (toRat (hudMonthlyIncome household_income) * (3 / 10) -
        toRat utility_allowance) ∧
    toRat (hudSubsidy household_income utility_allowance contract_rent) =
      max 0 (toRat contract_rent -
        toRat (hudTenantRent household_income utility_allowance)) ∧
    (0 ≤ toRat contract_rent →
      toRat utility_allowance > toRat (hudMonthlyIncome household_income) * (3 / 10) →
      toRat (hudTenantRent household_income utility_allowance) = 0 ∧
      toRat (hudSubsidy household_income utility_allowance contract_rent) =
        toRat contract_rent) := by
  have h1 : toRat (hudTenantRent household_income utility_allowance) =
      max 0 (toRat (hudMonthlyIncome household_income) * (3 / 10) -
        toRat utility_allowance) := by
    unfold hudTenantRent
    rw [toRat_pyMax, toRat_dec0, hsub1, hmul]
  have h2 : toRat (hudSubsidy household_income utility_allowance contract_rent) =
      max 0 (toRat contract_rent -
        toRat (hudTenantRent household_income utility_allowance)) := by
    unfold hudSubsidy
    rw [toRat_pyMax, toRat_dec0, hsub2]
  refine ⟨h1, h2, fun hcr hua => ?_⟩
  have hz : toRat (hudTenantRent household_income utility_allowance) = 0 := by
    rw [h1]
    exact max_eq_left (by linarith)
  refine ⟨hz, ?_⟩
  rw [h2, hz, sub_zero]
  exact max_eq_right hcr

/-- Witness for C2 at annual income 24000, utility allowance 700.00
(exceeding the 600 that is 30% of monthly income) and contract rent 1200:
the tenant rent is 0 and the subsidy is the full contract rent. -/
theorem claim_C2_witness :
    toRat (hudTenantRent ⟨24000, 0⟩ ⟨70000, -2⟩) = 0 ∧
    toRat (hudSubsidy ⟨24000, 0⟩ ⟨70000, -2⟩ ⟨1200, 0⟩) = toRat (⟨1200, 0⟩ : PyDecimal) :=
  (claim_C2 ⟨24000, 0⟩ ⟨70000, -2⟩ ⟨1200, 0⟩
    (by rw [show hudTenantPortion ⟨24000, 0⟩ = ⟨60000, -2⟩ from by decide,
          show hudMonthlyIncome ⟨24000, 0⟩ = ⟨2000, 0⟩ from by decide]
        norm_num [toRat])
    (by rw [show hudTenantPortion ⟨24000, 0⟩ = ⟨60000, -2⟩ from by decide,
          show pySub (⟨60000, -2⟩ : PyDecimal) ⟨70000, -2⟩ = ⟨-10000, -2⟩ from by decide]
        norm_num [toRat])
    (by rw [show hudTenantRent ⟨24000, 0⟩ ⟨70000, -2⟩ = ⟨0, 0⟩ from by decide,
          show pySub (⟨1200, 0⟩ : PyDecimal) ⟨0, 0⟩ = ⟨1200, 0⟩ from by decide]
        norm_num [toRat])).2.2
    (by norm_num [toRat])
    (by rw [show hudMonthlyIncome ⟨24000, 0⟩ = ⟨2000, 0⟩ from by decide]
        norm_num [toRat])

/-- Counterexample for C3 as stated: on annual income 24000, household size
2, utility allowance 50 and contract rent 1200, the returned decimal
strings are not `"550"` and `"650"` (Python decimal arithmetic keeps the
two cent digits: they are `"550.00"` and `"650.00"`). -/
theorem claim_C3_counterexample :
    ¬ ((calculate_tenant_rent ⟨24000, 0⟩ 2 ⟨50, 0⟩ ⟨1200, 0⟩).tenant_rent = "550" ∧
      (calculate_tenant_rent ⟨24000, 0⟩ 2 ⟨50, 0⟩ ⟨1200, 0⟩).subsidy_amount = "650") := by
  decide

/-- Claim C3 (amended): `calculate_tenant_rent(24000, 2, 50, 1200)` yields
monthly income 2000, tenant portion before utilities 600, tenant portion
550 and subsidy 650 as decimal values, and the returned `tenant_rent` and
`subsidy_amount` fields are exactly the decimal strings `"550.00"` and
`"650.00"` (the `monthly_income` field being `"2000"`). -/
theorem claim_C3 :
    (calculate_tenant_rent ⟨24000, 0⟩ 2 ⟨50, 0⟩ ⟨1200, 0⟩).tenant_rent = "550.00" ∧
    (calculate_tenant_rent ⟨24000, 0⟩ 2 ⟨50, 0⟩ ⟨1200, 0⟩).subsidy_amount = "650.00" ∧
    (calculate_tenant_rent ⟨24000, 0⟩ 2 ⟨50, 0⟩ ⟨1200, 0⟩).monthly_income = "2000" ∧
    toRat (hudMonthlyIncome ⟨24000, 0⟩) = 2000 ∧
    toRat (hudTenantPortion ⟨24000, 0⟩) = 600 ∧
    toRat (hudTenantRent ⟨24000, 0⟩ ⟨50, 0⟩) = 550 ∧
    toRat (hudSubsidy ⟨24000, 0⟩ ⟨50, 0⟩ ⟨1200, 0⟩) = 650 := by
  refine ⟨by decide, by decide, by decide, ?_, ?_, ?_, ?_⟩
  · rw [show hudMonthlyIncome ⟨24000, 0⟩ = ⟨2000, 0⟩ from by decide]
    norm_num [toRat]
  · rw [show hudTenantPortion ⟨24000, 0⟩ = ⟨60000, -2⟩ from by decide]
    norm_num [toRat]
  · rw [show hudTenantRent ⟨24000, 0⟩ ⟨50, 0⟩ = ⟨55000, -2⟩ from by decide]
    norm_num [toRat]
  · rw [show hudSubsidy ⟨24000, 0⟩ ⟨50, 0⟩ ⟨1200, 0⟩ = ⟨65000, -2⟩ from by decide]
    norm_num [toRat]

/-- Claim C6: `mark_invoice_paid` on an existing invoice stores the given
amount in `amount_paid` and derives the status by comparing it with
`total_amount`: equality gives `"paid"`, a strictly smaller amount gives
`"partially_paid"`. -/
theorem claim_C6 (invoices : List Invoice) (invoiceId orgId : Nat) (pd : PyDate)
    (amount : PyDecimal) (inv : Invoice)
    (hfind : invoices.filter (invoiceMatch invoiceId orgId) = [inv]) :
    ∃ r : Invoice, mark_invoice_paid invoices invoiceId orgId pd amount = some r ∧
      r.amount_paid = amount ∧
      (toRat amount = toRat inv.total_amount → r.status = "paid") ∧
      (toRat amount < toRat inv.total_amount → r.status = "partially_paid") := by
  unfold mark_invoice_paid
  rw [hfind]
  refine ⟨_, rfl, rfl, ?_, ?_⟩
  · intro he
    have hle : pyLeB inv.total_amount amount = true := by
      rw [pyLeB_iff]
      exact he.ge
    simp [hle]
  · intro hlt
    have hle : pyLeB inv.total_amount amount = false := by
      rw [← Bool.not_eq_true, pyLeB_iff]
      exact not_le.mpr hlt
    simp [hle]

/-- Witness for C6: paying exactly the 100.00 total marks invoice 3 as
`"paid"` with `amount_paid` as given. -/
theorem claim_C6_witness :
    ∃ r : Invoice,
      mark_invoice_paid [⟨3, 1, ⟨10000, -2⟩, ⟨0, 0⟩, "unpaid", none⟩] 3 1
          ⟨2024, 7, 1⟩ ⟨10000, -2⟩ = some r ∧
        r.amount_paid = ⟨10000, -2⟩ ∧ r.status = "paid" := by
  obtain ⟨r, hr, hp, hpaid, _⟩ :=
    claim_C6 [⟨3, 1, ⟨10000, -2⟩, ⟨0, 0⟩, "unpaid", none⟩] 3 1 ⟨2024, 7, 1⟩
      ⟨10000, -2⟩ ⟨3, 1, ⟨10000, -2⟩, ⟨0, 0⟩, "unpaid", none⟩ (by decide)
  exact ⟨r, hr, hp, hpaid rfl⟩

/-- Claim C10: the status comparison of `mark_invoice_paid` is
greater-or-equal, so any overpayment also yields status `"paid"`; no
validation rejects or caps it, and `amount_paid` is stored exactly as
given. -/
theorem claim_C10 (invoices : List Invoice) (invoiceId orgId : Nat) (pd : PyDate)
    (amount : PyDecimal) (inv : Invoice)
    (hfind : invoices.filter (invoiceMatch invoiceId orgId) = [inv])
    (hover : toRat inv.total_amount < toRat amount) :
    ∃ r : Invoice, mark_invoice_paid invoices invoiceId orgId pd amount = some r ∧
      r.status = "paid" ∧ r.amount_paid = amount := by
  unfold mark_invoice_paid
  rw [hfind]
  have hle : pyLeB inv.total_amount amount = true := by
    rw [pyLeB_iff]
    exact hover.le
  exact ⟨_, rfl, by simp [hle], rfl⟩

/-- Witness for C10: paying 150.00 against a 100.00 invoice still marks it
`"paid"`, and the stored `amount_paid` is the overpayment itself. -/
theorem claim_C10_witness :
    ∃ r : Invoice,
      mark_invoice_paid [⟨3, 1, ⟨10000, -2⟩, ⟨0, 0⟩, "unpaid", none⟩] 3 1
          ⟨2024, 7, 1⟩ ⟨15000, -2⟩ = some r ∧
        r.status = "paid" ∧ r.amount_paid = ⟨15000, -2⟩ :=
  claim_C10 [⟨3, 1, ⟨10000, -2⟩, ⟨0, 0⟩, "unpaid", none⟩] 3 1 ⟨2024, 7, 1⟩
    ⟨15000, -2⟩ ⟨3, 1, ⟨10000, -2⟩, ⟨0, 0⟩, "unpaid", none⟩ (by decide)
    (by norm_num [toRat])

end RentalAI
